import Mathlib

/-!
Shallow embedding of the navigation and view-state controller of the
Nur Al-Quran reading interface (source: `App` component, `src/unnamed/part_000`).

The controller's state hooks become fields of `AppState`; the verse data
provider (`QuranService.getAyah`) becomes a function parameter
`fetch : Int → Int → Option α` (`none` models a rejected request).
Each navigation handler returns the updated state together with the verse
fetch request it issued, as an `Option (Int × Int)`: `some (c, v)` means
exactly one request for chapter `c`, verse `v` was forwarded to the provider
during the handler's run, and `none` means no request was issued at all.
JavaScript numbers are embedded as `Int` (all comparisons and arithmetic
touched by the handlers are integral), `parseInt` results as `Option Int`
(`none` for `NaN`), and JavaScript falsiness of a nullable number
(`!x`, true for both `null` and `0`) as `jsFalsy`.
-/

namespace AiTafsir

/-- A chapter record (`Surah` in `types.ts`), as the sidebar and the
navigation handlers consume it. -/
structure Surah where
  number : Int
  name : String
  englishName : String
  englishNameTranslation : String
  numberOfAyahs : Int
deriving DecidableEq

/-- The two top-level UI modes (`type ViewMode = 'reader' | 'search'`). -/
inductive ViewMode
  | reader
  | search
deriving DecidableEq

/-- The controller state owned by the `App` component, restricted to the
fields the navigation logic reads or writes. `α` is the verse record type
(`AyahDisplayData`), opaque to the navigation logic. -/
structure AppState (α : Type) where
  surahs : List Surah
  currentSurah : Option Surah
  currentAyahNum : Int
  ayahData : Option α
  viewMode : ViewMode
  isLoadingAyah : Bool
  error : Option String
  isSidebarOpen : Bool
deriving DecidableEq

/-- The verse data provider: `QuranService.getAyah(surahNum, ayahNum)`.
`none` models a rejected promise (verse does not exist / network failure). -/
abbrev Fetch (α : Type) := Int → Int → Option α

/-- The literal error message `loadAyah` installs on provider rejection. -/
def ayahLoadErrorMsg : String :=
  "Could not load Ayah. It might not exist or network is down."

/-- `loadAyah(surahNum, ayahNum)`: set the loading flag, clear the error,
issue the fetch; on success replace the verse record, the verse index and
(when the chapter changed) re-resolve the chapter object from the loaded
list; on rejection set the error message; finally clear the loading flag.
The second component records the single fetch request issued. -/
def loadAyah (fetch : Fetch α) (surahNum ayahNum : Int) (st : AppState α) :
    AppState α × Option (Int × Int) :=
  let st1 := { st with isLoadingAyah := true, error := none }
  match fetch surahNum ayahNum with
  | some data =>
    let st2 := { st1 with ayahData := some data, currentAyahNum := ayahNum }
    let needsResolve : Bool :=
      match st2.currentSurah with
      | none => true
      | some cs => cs.number != surahNum
    let st3 :=
      if needsResolve then
        match st2.surahs.find? (fun s => s.number == surahNum) with
        | some f => { st2 with currentSurah := some f }
        | none => st2
      else st2
    ({ st3 with isLoadingAyah := false }, some (surahNum, ayahNum))
  | none =>
    ({ st1 with error := some ayahLoadErrorMsg, isLoadingAyah := false },
     some (surahNum, ayahNum))

/-- `handleNextAyah`: advance to the next verse, rolling into the next
chapter at a chapter boundary, a no-op past chapter 114. -/
def handleNextAyah (fetch : Fetch α) (st : AppState α) :
    AppState α × Option (Int × Int) :=
  match st.currentSurah with
  | none => (st, none)
  | some cs =>
    if st.currentAyahNum < cs.numberOfAyahs then
      loadAyah fetch cs.number (st.currentAyahNum + 1) st
    else if cs.number < 114 then
      loadAyah fetch (cs.number + 1) 1 st
    else (st, none)

/-- `handlePrevAyah`: retreat to the previous verse, rolling to verse 1 of
the previous chapter at a chapter start, a no-op before chapter 1. -/
def handlePrevAyah (fetch : Fetch α) (st : AppState α) :
    AppState α × Option (Int × Int) :=
  match st.currentSurah with
  | none => (st, none)
  | some cs =>
    if st.currentAyahNum > 1 then
      loadAyah fetch cs.number (st.currentAyahNum - 1) st
    else if cs.number > 1 then
      loadAyah fetch (cs.number - 1) 1 st
    else (st, none)

/-- `handleJumpToAyah`: direct numeric entry. The input is the result of
`parseInt` on the field value (`none` for `NaN`); out-of-range values are
silently ignored. -/
def handleJumpToAyah (fetch : Fetch α) (input : Option Int) (st : AppState α) :
    AppState α × Option (Int × Int) :=
  match st.currentSurah, input with
  | none, _ => (st, none)
  | some _, none => (st, none)
  | some cs, some num =>
    if 0 < num ∧ num ≤ cs.numberOfAyahs then
      loadAyah fetch cs.number num st
    else (st, none)

/-- `selectSearchResult(surahNum, ayahNum)`: switch to reader mode, load the
given position, close the sidebar. The coordinates come straight from a
search result and are not validated. -/
def selectSearchResult (fetch : Fetch α) (surahNum ayahNum : Int)
    (st : AppState α) : AppState α × Option (Int × Int) :=
  let st1 := { st with viewMode := ViewMode.reader }
  ({ (loadAyah fetch surahNum ayahNum st1).1 with isSidebarOpen := false },
   (loadAyah fetch surahNum ayahNum st1).2)

/-- `selectSurahFromList(surah)`: switch to reader mode, set the current
chapter to the given object, load its verse 1, close the sidebar. -/
def selectSurahFromList (fetch : Fetch α) (surah : Surah) (st : AppState α) :
    AppState α × Option (Int × Int) :=
  let st1 := { st with viewMode := ViewMode.reader, currentSurah := some surah }
  ({ (loadAyah fetch surah.number 1 st1).1 with isSidebarOpen := false },
   (loadAyah fetch surah.number 1 st1).2)

/-! ### Swipe gesture interpretation -/

/-- The four touch coordinate refs (`touchStartX/Y`, `touchEndX/Y`),
`none` standing for the JavaScript `null`. -/
structure TouchState where
  touchStartX : Option Int
  touchStartY : Option Int
  touchEndX : Option Int
  touchEndY : Option Int
deriving DecidableEq

/-- The refs' initial value: all `null`. -/
def initTouch : TouchState := ⟨none, none, none, none⟩

/-- `onTouchStart`: record the first touch point, clear the end point. -/
def onTouchStart (p : Int × Int) (_t : TouchState) : TouchState :=
  ⟨some p.1, some p.2, none, none⟩

/-- `onTouchMove`: record the latest touch point as the end point. -/
def onTouchMove (p : Int × Int) (t : TouchState) : TouchState :=
  { t with touchEndX := some p.1, touchEndY := some p.2 }

/-- JavaScript falsiness of a nullable number: `!x` is true for `null`
and for `0`. -/
def jsFalsy : Option Int → Bool
  | none => true
  | some v => v == 0

/-- JavaScript `x || 0` on a nullable number: `null ↦ 0`, otherwise the
value itself (`0 || 0` is also `0`). -/
def jsOrZero : Option Int → Int
  | none => 0
  | some v => v

/-- The navigation command a completed gesture resolves to. `next` means
`handleNextAyah` is invoked, `prev` means `handlePrevAyah`, `idle` means
no navigation is triggered. -/
inductive NavCmd
  | next
  | prev
  | idle
deriving DecidableEq

/-- `onTouchEnd`: bail out when either x ref is falsy (null or 0); otherwise
compare `xDist = startX − endX` against the 50-unit threshold and against
`yDist = startY − endY`; a dominant positive `xDist` (leftward swipe)
advances, a dominant negative one retreats. -/
def onTouchEnd (t : TouchState) : NavCmd :=
  if jsFalsy t.touchStartX || jsFalsy t.touchEndX then NavCmd.idle
  else
    let xDist := jsOrZero t.touchStartX - jsOrZero t.touchEndX
    let yDist := jsOrZero t.touchStartY - jsOrZero t.touchEndY
    let minSwipeDistance : Int := 50
    if |xDist| > minSwipeDistance ∧ |xDist| > |yDist| then
      if xDist > 0 then NavCmd.next else NavCmd.prev
    else NavCmd.idle

/-- A full gesture: `onTouchStart` at `startP`, `onTouchMove` ending at
`endP`, then `onTouchEnd` resolves the command. -/
def interpretGesture (startP endP : Int × Int) : NavCmd :=
  onTouchEnd (onTouchMove endP (onTouchStart startP initTouch))

/-- Dispatch a resolved gesture command to the navigation handlers. -/
def applyNav (fetch : Fetch α) (c : NavCmd) (st : AppState α) :
    AppState α × Option (Int × Int) :=
  match c with
  | NavCmd.next => handleNextAyah fetch st
  | NavCmd.prev => handlePrevAyah fetch st
  | NavCmd.idle => (st, none)

/-- Interpret a gesture and run the resulting navigation. -/
def runGesture (fetch : Fetch α) (startP endP : Int × Int) (st : AppState α) :
    AppState α × Option (Int × Int) :=
  applyNav fetch (interpretGesture startP endP) st

/-! ### Chapter filter -/

/-- Substring test on character lists: does `sub` occur contiguously in the
second argument? (JavaScript `String.prototype.includes`.) -/
def jsIncludesAux (sub : List Char) : List Char → Bool
  | [] => sub.isEmpty
  | c :: t => sub.isPrefixOf (c :: t) || jsIncludesAux sub t

/-- JavaScript `s.includes(sub)`. -/
def jsIncludes (s sub : String) : Bool :=
  jsIncludesAux sub.toList s.toList

/-- JavaScript `s.toLowerCase()`, character by character. -/
def jsToLower (s : String) : String :=
  String.mk (s.toList.map Char.toLower)

/-- `filteredSurahs`: the sidebar filter. A chapter is kept when the decimal
text of its number contains the query, or its transliterated / translated
name contains it case-insensitively, or its native-script name contains it
case-sensitively. -/
def filteredSurahs (surahs : List Surah) (surahQuery : String) : List Surah :=
  surahs.filter (fun s =>
    jsIncludes (toString s.number) surahQuery
    || jsIncludes (jsToLower s.englishName) (jsToLower surahQuery)
    || jsIncludes (jsToLower s.englishNameTranslation) (jsToLower surahQuery)
    || jsIncludes s.name surahQuery)

/-! ### Well-formedness and bound predicates used by the invariant claim -/

/-- A fetch request stays inside the verse bounds of the chapter it
addresses: whenever the loaded list holds a chapter with the requested
identifier, the requested verse index lies in `[1, numberOfAyahs]`.
`none` (no fetch) satisfies the bound vacuously. -/
def fetchInBounds (l : List Surah) : Option (Int × Int) → Prop
  | none => True
  | some (cid, vi) => ∀ s ∈ l, s.number = cid → 1 ≤ vi ∧ vi ≤ s.numberOfAyahs

/-! ### Helper lemmas -/

/-- `loadAyah` forwards exactly the requested coordinate to the provider,
whether the fetch succeeds or fails. -/
theorem loadAyah_req (fetch : Fetch α) (a b : Int) (st : AppState α) :
    (loadAyah fetch a b st).2 = some (a, b) := by
  unfold loadAyah
  cases h : fetch a b <;> simp

/-- The empty pattern occurs in every character list. -/
theorem jsIncludesAux_nil (l : List Char) : jsIncludesAux [] l = true := by
  cases l <;> simp [jsIncludesAux, List.isPrefixOf]

/-- A request that satisfies the per-chapter bound is in bounds. -/
theorem fetchInBounds_some (l : List Surah) (cid vi : Int)
    (h : ∀ s ∈ l, s.number = cid → 1 ≤ vi ∧ vi ≤ s.numberOfAyahs) :
    fetchInBounds l (some (cid, vi)) := h

/-- No fetch is always in bounds. -/
theorem fetchInBounds_none (l : List Surah) : fetchInBounds l none := trivial

/-! ### Concrete fixtures used by witnesses and counterexamples -/

/-- A provider that accepts every coordinate. -/
def fetchAll : Fetch Unit := fun _ _ => some ()

/-- A provider that rejects every coordinate. -/
def fetchFail : Fetch Unit := fun _ _ => none

/-- Chapter 5, 120 verses. -/
def surah5 : Surah := ⟨5, "المائدة", "Al-Maidah", "The Table Spread", 120⟩

/-- Chapter 9, 129 verses. -/
def surah9 : Surah := ⟨9, "التوبة", "At-Tawbah", "The Repentance", 129⟩

/-- A reader state positioned at chapter 5, verse 3. -/
def stW : AppState Unit :=
  ⟨[surah5, surah9], some surah5, 3, none, ViewMode.reader, false, none, false⟩

/-- A startup state before any navigation: no current chapter. -/
def stNoSurah : AppState Unit :=
  ⟨[surah5, surah9], none, 1, none, ViewMode.search, false, none, false⟩

/-! ### Claim theorems -/

/-- C1: with current chapter `c` and verse index `v`, `advance()`
(`handleNextAyah`) fetches `(c.number, v + 1)` when `v < c.numberOfAyahs`,
fetches `(c.number + 1, 1)` when `v = c.numberOfAyahs` and `c.number < 114`,
and is a no-op (no fetch, no state change) when `v = c.numberOfAyahs` and
`c.number = 114`. -/
theorem advance_spec (fetch : Fetch α) (st : AppState α) (c : Surah)
    (h : st.currentSurah = some c) :
    (st.currentAyahNum < c.numberOfAyahs →
      (handleNextAyah fetch st).2 = some (c.number, st.currentAyahNum + 1)) ∧
    (st.currentAyahNum = c.numberOfAyahs → c.number < 114 →
      (handleNextAyah fetch st).2 = some (c.number + 1, 1)) ∧
    (st.currentAyahNum = c.numberOfAyahs → c.number = 114 →
      handleNextAyah fetch st = (st, none)) := by
  simp only [handleNextAyah, h]
  refine ⟨fun hlt => ?_, fun heq hlt => ?_, fun heq h114 => ?_⟩
  · rw [if_pos hlt, loadAyah_req]
  · rw [if_neg (by omega), if_pos hlt, loadAyah_req]
  · rw [if_neg (by omega), if_neg (by omega)]

/-- Witness for C1 at the concrete state `stW` (chapter 5, verse 3). -/
theorem advance_spec_witness :
    stW.currentSurah = some surah5 ∧
    (handleNextAyah fetchAll stW).2 = some (5, 4) :=
  ⟨rfl, (advance_spec fetchAll stW surah5 rfl).1 (by decide)⟩

/-- C2: with current chapter `c` and verse index `v`, `retreat()`
(`handlePrevAyah`) fetches `(c.number, v − 1)` when `v > 1`, fetches
`(c.number − 1, 1)` (verse 1 of the previous chapter) when `v = 1` and
`c.number > 1`, and is a no-op when `v = 1` and `c.number = 1`. -/
theorem retreat_spec (fetch : Fetch α) (st : AppState α) (c : Surah)
    (h : st.currentSurah = some c) :
    (1 < st.currentAyahNum →
      (handlePrevAyah fetch st).2 = some (c.number, st.currentAyahNum - 1)) ∧
    (st.currentAyahNum = 1 → 1 < c.number →
      (handlePrevAyah fetch st).2 = some (c.number - 1, 1)) ∧
    (st.currentAyahNum = 1 → c.number = 1 →
      handlePrevAyah fetch st = (st, none)) := by
  simp only [handlePrevAyah, h]
  refine ⟨fun hgt => ?_, fun heq hgt => ?_, fun heq h1 => ?_⟩
  · rw [if_pos hgt, loadAyah_req]
  · rw [if_neg (by omega), if_pos hgt, loadAyah_req]
  · rw [if_neg (by omega), if_neg (by omega)]

/-- Witness for C2 at the concrete state `stW` (chapter 5, verse 3). -/
theorem retreat_spec_witness :
    stW.currentSurah = some surah5 ∧
    (handlePrevAyah fetchAll stW).2 = some (5, 2) :=
  ⟨rfl, (retreat_spec fetchAll stW surah5 rfl).1 (by decide)⟩

/-- C4: with current chapter `c`, `jumpTo` (`handleJumpToAyah`) is a no-op
for a non-integer input (`none`), for `v ≤ 0` and for `v > c.numberOfAyahs`;
for `1 ≤ v ≤ c.numberOfAyahs` it behaves exactly as
`goToVerse(c.number, v)` (`loadAyah`). -/
theorem jumpTo_spec (fetch : Fetch α) (st : AppState α) (c : Surah)
    (h : st.currentSurah = some c) :
    handleJumpToAyah fetch none st = (st, none) ∧
    (∀ v : Int, v ≤ 0 ∨ c.numberOfAyahs < v →
      handleJumpToAyah fetch (some v) st = (st, none)) ∧
    (∀ v : Int, 0 < v → v ≤ c.numberOfAyahs →
      handleJumpToAyah fetch (some v) st = loadAyah fetch c.number v st) := by
  simp only [handleJumpToAyah, h]
  refine ⟨trivial, fun v hv => ?_, fun v hv1 hv2 => ?_⟩
  · rw [if_neg (by omega)]
  · rw [if_pos ⟨hv1, hv2⟩]

/-- Witness for C4 at the concrete state `stW` (chapter 5, 120 verses). -/
theorem jumpTo_spec_witness :
    stW.currentSurah = some surah5 ∧
    handleJumpToAyah fetchAll (some 7) stW = loadAyah fetchAll 5 7 stW :=
  ⟨rfl, (jumpTo_spec fetchAll stW surah5 rfl).2.2 7 (by decide) (by decide)⟩

/-- C5: when the provider rejects the fetch for `(sn, an)`, `loadAyah`
leaves the displayed verse record, the current chapter and the current
verse index unchanged, sets the error slot to the human-readable message,
ends with the loading flag false, and issues exactly the one original
fetch (no retry). -/
theorem loadAyah_failure_spec (fetch : Fetch α) (st : AppState α)
    (sn an : Int) (h : fetch sn an = none) :
    (loadAyah fetch sn an st).1.ayahData = st.ayahData ∧
    (loadAyah fetch sn an st).1.currentSurah = st.currentSurah ∧
    (loadAyah fetch sn an st).1.currentAyahNum = st.currentAyahNum ∧
    (loadAyah fetch sn an st).1.error = some ayahLoadErrorMsg ∧
    (loadAyah fetch sn an st).1.isLoadingAyah = false ∧
    (loadAyah fetch sn an st).2 = some (sn, an) := by
  simp [loadAyah, h]

/-- Witness for C5: the always-rejecting provider at `(9, 999)` from `stW`. -/
theorem loadAyah_failure_spec_witness :
    fetchFail 9 999 = none ∧
    ((loadAyah fetchFail 9 999 stW).1.ayahData = stW.ayahData ∧
     (loadAyah fetchFail 9 999 stW).1.currentSurah = stW.currentSurah ∧
     (loadAyah fetchFail 9 999 stW).1.currentAyahNum = stW.currentAyahNum ∧
     (loadAyah fetchFail 9 999 stW).1.error = some ayahLoadErrorMsg ∧
     (loadAyah fetchFail 9 999 stW).1.isLoadingAyah = false ∧
     (loadAyah fetchFail 9 999 stW).2 = some (9, 999)) :=
  ⟨rfl, loadAyah_failure_spec fetchFail stW 9 999 rfl⟩

/-- C9: before the first navigation (no current chapter), `advance()`,
`retreat()` and `jumpTo(v)` for every input `v` are all no-ops: no fetch
is issued and the state is unchanged. -/
theorem noSurah_noop_spec (fetch : Fetch α) (st : AppState α)
    (h : st.currentSurah = none) :
    handleNextAyah fetch st = (st, none) ∧
    handlePrevAyah fetch st = (st, none) ∧
    ∀ v : Option Int, handleJumpToAyah fetch v st = (st, none) := by
  refine ⟨?_, ?_, fun v => ?_⟩ <;>
    simp [handleNextAyah, handlePrevAyah, handleJumpToAyah, h]

/-- Witness for C9 at the concrete startup state `stNoSurah`. -/
theorem noSurah_noop_spec_witness :
    stNoSurah.currentSurah = none ∧
    handleNextAyah fetchAll stNoSurah = (stNoSurah, none) ∧
    handlePrevAyah fetchAll stNoSurah = (stNoSurah, none) ∧
    handleJumpToAyah fetchAll (some 3) stNoSurah = (stNoSurah, none) := by
  have h := noSurah_noop_spec fetchAll stNoSurah rfl
  exact ⟨rfl, h.1, h.2.1, h.2.2 (some 3)⟩

/-- C6 counterexample: the gesture from `(100, 0)` to `(180, 0)` has
`dx = endX − startX = 80 > 50` and `dy = 0`, so the claim predicts
`advance()` (`NavCmd.next`); the code computes `xDist = startX − endX = −80`
and triggers `handlePrevAyah` (`NavCmd.prev`) instead. -/
theorem gesture_direction_cex :
    interpretGesture (100, 0) (180, 0) = NavCmd.prev ∧
    interpretGesture (100, 0) (180, 0) ≠ NavCmd.next := by
  constructor <;> decide

/-- C6 (amended): for a gesture whose recorded x-coordinates are both
nonzero, with `dx = endX − startX` and `dy = endY − startY`, if
`|dx| > 50` and `|dx| > |dy|` then the gesture triggers `retreat()` when
`dx > 0` and `advance()` when `dx < 0`. -/
theorem gesture_horizontal_spec (sp ep : Int × Int)
    (hsx : sp.1 ≠ 0) (hex : ep.1 ≠ 0)
    (hdist : 50 < |ep.1 - sp.1|) (hdom : |ep.2 - sp.2| < |ep.1 - sp.1|) :
    (0 < ep.1 - sp.1 → interpretGesture sp ep = NavCmd.prev) ∧
    (ep.1 - sp.1 < 0 → interpretGesture sp ep = NavCmd.next) := by
  have hx : |sp.1 - ep.1| = |ep.1 - sp.1| := abs_sub_comm _ _
  have hy : |sp.2 - ep.2| = |ep.2 - sp.2| := abs_sub_comm _ _
  have hguard : (jsFalsy (some sp.1) || jsFalsy (some ep.1)) = false := by
    simp [jsFalsy, hsx, hex]
  constructor <;> intro hsign <;>
    simp only [interpretGesture, onTouchStart, onTouchMove, onTouchEnd,
      initTouch, jsOrZero] <;>
    rw [if_neg (by rw [hguard]; exact Bool.false_ne_true)] <;>
    rw [if_pos ⟨by rw [hx]; exact hdist, by rw [hx, hy]; exact hdom⟩]
  · rw [if_neg (by omega)]
  · rw [if_pos (by omega)]

/-- Witness for the amended C6: a leftward swipe from `(200, 10)` to
`(120, 10)` (`dx = −80`) advances. -/
theorem gesture_horizontal_spec_witness :
    interpretGesture (200, 10) (120, 10) = NavCmd.next :=
  (gesture_horizontal_spec (200, 10) (120, 10) (by decide) (by decide)
    (by decide) (by decide)).2 (by decide)

/-- C7: a gesture with `|dx| ≤ 50` or `|dx| ≤ |dy|` triggers no navigation:
the resolved command is `idle`, no handler runs, the state is unchanged and
no fetch is issued. -/
theorem gesture_no_nav_spec (fetch : Fetch α) (st : AppState α)
    (sp ep : Int × Int)
    (h : |ep.1 - sp.1| ≤ 50 ∨ |ep.1 - sp.1| ≤ |ep.2 - sp.2|) :
    interpretGesture sp ep = NavCmd.idle ∧
    runGesture fetch sp ep st = (st, none) := by
  have hg : interpretGesture sp ep = NavCmd.idle := by
    simp only [interpretGesture, onTouchStart, onTouchMove, onTouchEnd,
      initTouch, jsOrZero]
    by_cases hz : (jsFalsy (some sp.1) || jsFalsy (some ep.1)) = true
    · rw [if_pos hz]
    · rw [if_neg hz, if_neg]
      intro hc
      rw [abs_sub_comm sp.1 ep.1, abs_sub_comm sp.2 ep.2] at hc
      rcases h with h | h
      · exact absurd hc.1 (not_lt.mpr h)
      · exact absurd hc.2 (not_lt.mpr h)
  exact ⟨hg, by simp [runGesture, hg, applyNav]⟩

/-- Witness for C7: a 30-unit horizontal motion (below the threshold). -/
theorem gesture_no_nav_spec_witness :
    interpretGesture (10, 10) (40, 10) = NavCmd.idle ∧
    runGesture fetchAll (10, 10) (40, 10) stW = (stW, none) :=
  gesture_no_nav_spec fetchAll stW (10, 10) (40, 10) (Or.inl (by decide))

/-- C10: a gesture whose recorded start or end x-coordinate is exactly 0 is
treated like an absent touch point: no navigation is triggered, even for a
large dominant horizontal displacement. -/
theorem gesture_zero_x_spec (fetch : Fetch α) (st : AppState α)
    (sp ep : Int × Int) (h : sp.1 = 0 ∨ ep.1 = 0) :
    interpretGesture sp ep = NavCmd.idle ∧
    runGesture fetch sp ep st = (st, none) := by
  have hg : interpretGesture sp ep = NavCmd.idle := by
    simp only [interpretGesture, onTouchStart, onTouchMove, onTouchEnd,
      initTouch]
    rw [if_pos (by rcases h with h | h <;> simp [jsFalsy, h])]
  exact ⟨hg, by simp [runGesture, hg, applyNav]⟩

/-- Witness for C10: start x-coordinate 0, displacement `dx = 300`. -/
theorem gesture_zero_x_spec_witness :
    interpretGesture (0, 5) (300, 5) = NavCmd.idle ∧
    runGesture fetchAll (0, 5) (300, 5) stW = (stW, none) :=
  gesture_zero_x_spec fetchAll stW (0, 5) (300, 5) (Or.inl rfl)

/-- C8: the chapter filter keeps exactly the chapters whose number's decimal
text contains the query, or whose transliterated name or translated gloss
contains it case-insensitively, or whose native-script name contains it
case-sensitively; the empty query returns the whole list in its original
order. (The filter is a pure function of `(chapters, query)` by
construction.) -/
theorem filteredSurahs_spec (chapters : List Surah) (q : String) :
    (∀ s : Surah, s ∈ filteredSurahs chapters q ↔
      s ∈ chapters ∧
      (jsIncludes (toString s.number) q = true ∨
       jsIncludes (jsToLower s.englishName) (jsToLower q) = true ∨
       jsIncludes (jsToLower s.englishNameTranslation) (jsToLower q) = true ∨
       jsIncludes s.name q = true)) ∧
    filteredSurahs chapters "" = chapters := by
  constructor
  · intro s
    simp [filteredSurahs, List.mem_filter, or_assoc]
  · unfold filteredSurahs
    have hq : ∀ s : String, jsIncludes s "" = true :=
      fun s => jsIncludesAux_nil s.toList
    have hq0 : jsToLower "" = "" := rfl
    apply List.filter_eq_self.mpr
    intro a _
    simp [hq0, hq]

/-- C3 counterexample: from a state whose loaded list holds chapter 9 with
129 verses, `selectSearchResult(9, 999)` forwards the fetch `(9, 999)` to
the verse provider even though verse 999 is outside `[1, 129]`: the
controller does not clamp or reject search-result coordinates. -/
theorem selectSearchResult_unclamped_cex :
    (selectSearchResult fetchAll 9 999 stW).2 = some (9, 999) ∧
    ¬ fetchInBounds stW.surahs (selectSearchResult fetchAll 9 999 stW).2 := by
  constructor
  · rfl
  · intro hb
    have hb9 : fetchInBounds stW.surahs (some (9, 999)) := hb
    have h2 := hb9 surah9 (by simp [stW]) rfl
    exact absurd h2.2 (by decide)

/-- C3 (amended): `advance()`, `retreat()`, `jumpTo` and `selectChapter`
only ever fetch positions with `verseIndex ∈ [1, numberOfAyahs]` of the
addressed chapter, given a well-formed chapter list (all verse counts at
least 1, identifiers unique) and a current position inside its chapter's
bounds; `selectSearchResult` is excluded — it forwards its arguments
unvalidated. -/
theorem nav_in_bounds (fetch : Fetch α) (st : AppState α)
    (hcnt : ∀ s ∈ st.surahs, 1 ≤ s.numberOfAyahs)
    (huniq : ∀ s ∈ st.surahs, ∀ t ∈ st.surahs, s.number = t.number → s = t)
    (hinv : ∀ c, st.currentSurah = some c →
      c ∈ st.surahs ∧ 1 ≤ st.currentAyahNum ∧
      st.currentAyahNum ≤ c.numberOfAyahs) :
    fetchInBounds st.surahs (handleNextAyah fetch st).2 ∧
    fetchInBounds st.surahs (handlePrevAyah fetch st).2 ∧
    (∀ v : Option Int, fetchInBounds st.surahs (handleJumpToAyah fetch v st).2) ∧
    (∀ ch ∈ st.surahs, fetchInBounds st.surahs (selectSurahFromList fetch ch st).2) := by
  have hsel : ∀ ch : Surah,
      (selectSurahFromList fetch ch st).2 = some (ch.number, 1) := by
    intro ch
    simp [selectSurahFromList, loadAyah_req]
  cases hc : st.currentSurah with
  | none =>
    refine ⟨?_, ?_, fun v => ?_, fun ch hch => ?_⟩
    · simp only [handleNextAyah, hc]
      exact fetchInBounds_none _
    · simp only [handlePrevAyah, hc]
      exact fetchInBounds_none _
    · cases v <;> simp only [handleJumpToAyah, hc] <;> exact fetchInBounds_none _
    · rw [hsel ch]
      exact fetchInBounds_some _ _ _ (fun s hs _ => ⟨le_refl 1, hcnt s hs⟩)
  | some c =>
    obtain ⟨hcmem, hv1, hv2⟩ := hinv c hc
    refine ⟨?_, ?_, fun v => ?_, fun ch hch => ?_⟩
    · simp only [handleNextAyah, hc]
      split_ifs with h1 h2
      · rw [loadAyah_req]
        refine fetchInBounds_some _ _ _ (fun s hs hnum => ?_)
        have hsc : s = c := huniq s hs c hcmem hnum
        subst hsc
        omega
      · rw [loadAyah_req]
        exact fetchInBounds_some _ _ _ (fun s hs _ => ⟨le_refl 1, hcnt s hs⟩)
      · exact fetchInBounds_none _
    · simp only [handlePrevAyah, hc]
      split_ifs with h1 h2
      · rw [loadAyah_req]
        refine fetchInBounds_some _ _ _ (fun s hs hnum => ?_)
        have hsc : s = c := huniq s hs c hcmem hnum
        subst hsc
        omega
      · rw [loadAyah_req]
        exact fetchInBounds_some _ _ _ (fun s hs _ => ⟨le_refl 1, hcnt s hs⟩)
      · exact fetchInBounds_none _
    · cases v with
      | none =>
        simp only [handleJumpToAyah, hc]
        exact fetchInBounds_none _
      | some num =>
        simp only [handleJumpToAyah, hc]
        split_ifs with h1
        · rw [loadAyah_req]
          refine fetchInBounds_some _ _ _ (fun s hs hnum => ?_)
          have hsc : s = c := huniq s hs c hcmem hnum
          subst hsc
          omega
        · exact fetchInBounds_none _
    · rw [hsel ch]
      exact fetchInBounds_some _ _ _ (fun s hs _ => ⟨le_refl 1, hcnt s hs⟩)

/-- Witness for the amended C3 at the concrete state `stW` (chapters 5 and
9 loaded, position chapter 5 verse 3). -/
theorem nav_in_bounds_witness :
    fetchInBounds stW.surahs (handleNextAyah fetchAll stW).2 ∧
    fetchInBounds stW.surahs (handlePrevAyah fetchAll stW).2 ∧
    (∀ v : Option Int, fetchInBounds stW.surahs (handleJumpToAyah fetchAll v stW).2) ∧
    (∀ ch ∈ stW.surahs, fetchInBounds stW.surahs (selectSurahFromList fetchAll ch stW).2) :=
  nav_in_bounds fetchAll stW (by decide) (by decide)
    (fun c hc => by
      have h5 : surah5 = c := Option.some.inj hc
      subst h5
      exact ⟨by decide, by decide, by decide⟩)

end AiTafsir
